import Mathlib

/-!
Shallow embedding of `scripts/add_watermark.py`, a utility that overlays a
"PREPRINT" watermark onto every page of a PDF document and writes the result
to a new file.

Modelling choices:
* The reportlab canvas is a small state machine (`Canvas`): a current
  graphics state (`GState`: accumulated transform, font, fill colour with
  alpha), a saved-state stack, and the list of draw commands issued so far.
  `drawCentredString` records a `DrawCommand` carrying the graphics state in
  force at draw time; the accumulated transform is kept as the literal list
  of `translate`/`rotate` operations issued since canvas creation, so that
  "centred at the page centre, rotated by `angle` about that centre" is the
  decidable statement `ctm = [translate (w/2) (h/2), rotate angle]` with the
  string anchored at user-space `(0, 0)`.
* PDF pages are their media-box size plus an ordered content list; input
  pages carry opaque `original` content items, `merge_page` appends the
  watermark page's content after (i.e. on top of) the existing content and
  keeps the target page's own size, matching PyPDF2's `PageObject.merge_page`.
* The reportlab A4 page size is 210mm x 297mm at 72 points per inch, i.e.
  exactly (75600/127, 106920/127) points; we use those exact rationals.
* Exceptions raised by the PDF libraries are modelled by a fault-injection
  environment `Env`: parsing the input either yields its page list or an
  error string, and watermark generation, each per-page merge, opening the
  output file and serialising to it may each be told to raise.  The
  `try/except` in `add_watermark` then becomes a total function producing a
  `RunOut` record of the observable outcome (returned flag, printed lines,
  whether the output path was opened, the complete document written, and how
  often the generator ran).
* The `__main__` block is `mainScript`, taking the full `sys.argv` (element
  0 is the program name, as in Python) and an `os.path.exists` oracle, and
  returning the exit status, the printed lines, and the `add_watermark`
  outcome when it was reached.
-/

namespace AddWatermark

/-- A 2-D transform operation recorded on the graphics state, as issued by
`canvas.translate` and `canvas.rotate` (angle in degrees). -/
inductive TransformOp where
  | translate (dx dy : ℚ)
  | rotate (angle : ℚ)
deriving DecidableEq, Repr

/-- One text-drawing command recorded by the canvas, with the graphics state
in force when it was issued: font name and size, fill colour name and alpha,
the user-space anchor `(x, y)`, whether the string is centred on the anchor,
and the accumulated coordinate transform. -/
structure DrawCommand where
  text : String
  font : String
  fontSize : ℚ
  color : String
  alpha : ℚ
  x : ℚ
  y : ℚ
  centred : Bool
  ctm : List TransformOp
deriving DecidableEq, Repr

/-- The mutable graphics state of a reportlab canvas: accumulated transform
and current font / fill settings.  Defaults are reportlab's canvas defaults
(identity transform, Helvetica 12, black fill, fully opaque). -/
structure GState where
  ctm : List TransformOp := []
  font : String := "Helvetica"
  fontSize : ℚ := 12
  fillColor : String := "black"
  fillAlpha : ℚ := 1
deriving DecidableEq, Repr

/-- A reportlab canvas: page size, current graphics state, the stack managed
by `saveState`/`restoreState`, and the draw commands issued so far. -/
structure Canvas where
  pagesize : ℚ × ℚ
  g : GState
  stack : List GState
  draws : List DrawCommand
deriving DecidableEq, Repr

namespace Canvas

/-- `canvas.Canvas(packet, pagesize=...)`: fresh canvas with default state. -/
def new (pagesize : ℚ × ℚ) : Canvas :=
  ⟨pagesize, {}, [], []⟩

/-- `can.setFont(name, size)`. -/
def setFont (c : Canvas) (name : String) (size : ℚ) : Canvas :=
  { c with g := { c.g with font := name, fontSize := size } }

/-- `can.setFillColor(color, alpha=a)`. -/
def setFillColor (c : Canvas) (color : String) (alpha : ℚ) : Canvas :=
  { c with g := { c.g with fillColor := color, fillAlpha := alpha } }

/-- `can.saveState()`: push the current graphics state. -/
def saveState (c : Canvas) : Canvas :=
  { c with stack := c.g :: c.stack }

/-- `can.restoreState()`: pop the most recently saved graphics state (the
script always keeps the stack balanced, so the empty-stack case is inert). -/
def restoreState (c : Canvas) : Canvas :=
  match c.stack with
  | [] => c
  | g0 :: rest => { c with g := g0, stack := rest }

/-- `can.translate(dx, dy)`: append a translation to the transform. -/
def translate (c : Canvas) (dx dy : ℚ) : Canvas :=
  { c with g := { c.g with ctm := c.g.ctm ++ [TransformOp.translate dx dy] } }

/-- `can.rotate(angle)`: append a rotation (degrees) to the transform. -/
def rotate (c : Canvas) (angle : ℚ) : Canvas :=
  { c with g := { c.g with ctm := c.g.ctm ++ [TransformOp.rotate angle] } }

/-- `can.drawCentredString(x, y, text)`: record a centred text draw under the
current graphics state. -/
def drawCentredString (c : Canvas) (x y : ℚ) (text : String) : Canvas :=
  { c with draws := c.draws ++
      [⟨text, c.g.font, c.g.fontSize, c.g.fillColor, c.g.fillAlpha,
        x, y, true, c.g.ctm⟩] }

end Canvas

/-- One item of a PDF page's content stream: either opaque content the input
document already carried (tagged so distinct pages stay distinguishable), or
a draw command stamped by the watermark canvas. -/
inductive ContentItem where
  | original (tag : ℕ)
  | draw (c : DrawCommand)
deriving DecidableEq, Repr

/-- A PDF page: its media-box size and its ordered content stream (later
items render on top of earlier ones). -/
structure Page where
  size : ℚ × ℚ
  content : List ContentItem
deriving DecidableEq, Repr

instance : Inhabited Page := ⟨⟨(0, 0), []⟩⟩

/-- `page.merge_page(other)` (PyPDF2 `PageObject.merge_page`): overlay
`other`'s content on top of `p`'s, keeping `p`'s own media box. -/
def Page.merge_page (p other : Page) : Page :=
  ⟨p.size, p.content ++ other.content⟩

/-- A parsed PDF document as exposed by `PdfReader`: its page list. -/
structure PdfReader where
  pages : List Page
deriving DecidableEq, Repr

/-- Width of reportlab's A4 page size in points: 210mm at 72/25.4 pt/mm. -/
def a4Width : ℚ := 75600 / 127

/-- Height of reportlab's A4 page size in points: 297mm at 72/25.4 pt/mm. -/
def a4Height : ℚ := 106920 / 127

/-- reportlab's `A4` pagesize constant. -/
def A4 : ℚ × ℚ := (a4Width, a4Height)

/-- `create_watermark(text="PREPRINT", angle=45, opacity=0.3)`: render a
single-page in-memory PDF holding `text` in Helvetica-Bold 60pt, gray at the
given alpha, drawn centred at the A4 page centre and rotated by `angle`
about it, and hand it back parsed. -/
def create_watermark (text : String := "PREPRINT") (angle : ℚ := 45)
    (opacity : ℚ := 3 / 10) : PdfReader :=
  let can := Canvas.new A4
  let can := can.setFont "Helvetica-Bold" 60
  let can := can.setFillColor "gray" opacity
  let can := can.saveState
  let can := can.translate (a4Width / 2) (a4Height / 2)
  let can := can.rotate angle
  let can := can.drawCentredString 0 0 text
  let can := can.restoreState
  ⟨[⟨can.pagesize, can.draws.map ContentItem.draw⟩]⟩

/-- The watermark page `add_watermark` stamps: `create_watermark(text)` with
the default angle and opacity, then `watermark.pages[0]`. -/
def watermarkPage (text : String) : Page :=
  (create_watermark text).pages.headI

/-- Fault-injection environment standing for everything the PDF libraries
and the filesystem may do during one `add_watermark` run: the outcome of
parsing the input, and an optional exception for watermark generation, for
the merge of each page index, for opening the output path, and for
serialising the writer. -/
structure Env where
  parse : Except String (List Page)
  genErr : Option String := none
  mergeErr : ℕ → Option String := fun _ => none
  openErr : Option String := none
  writeErr : Option String := none

/-- Observable outcome of one `add_watermark` call: the returned flag, the
lines it printed, whether the output path was opened for writing, the
complete page list serialised (`none` when no complete document was
written), and how many times `create_watermark` was invoked. -/
structure RunOut where
  success : Bool
  printed : List String
  outputOpened : Bool
  written : Option (List Page)
  genCalls : ℕ
deriving DecidableEq, Repr

/-- The failure line `print(f"❌ Error processing {input_pdf}: {e}")`. -/
def errMsg (input e : String) : String :=
  "❌ Error processing " ++ input ++ ": " ++ e

/-- The success line `print(f"✅ Successfully added watermark to {output_pdf}")`. -/
def okMsg (output : String) : String :=
  "✅ Successfully added watermark to " ++ output

/-- The `for page in reader.pages` loop: merge the watermark onto each page
in order, accumulating into the writer, where the merge of the page at index
`i` may raise `env.mergeErr i`. -/
def mergeLoop (env : Env) (wpage : Page) : List Page → ℕ → Except String (List Page)
  | [], _ => Except.ok []
  | p :: rest, i =>
    match env.mergeErr i with
    | some e => Except.error e
    | none => (mergeLoop env wpage rest (i + 1)).map (fun ps => p.merge_page wpage :: ps)

/-- `add_watermark(input_pdf, output_pdf, watermark_text="PREPRINT")`: parse
the input, build the watermark once, merge it onto every page, serialise to
the output path, print a success line and return `True`; any exception along
the way is caught, an error line naming the input and the exception is
printed, and `False` is returned. -/
def add_watermark (input_pdf output_pdf : String)
    (watermark_text : String := "PREPRINT") (env : Env) : RunOut :=
  match env.parse with
  | Except.error e => ⟨false, [errMsg input_pdf e], false, none, 0⟩
  | Except.ok pages =>
    match env.genErr with
    | some e => ⟨false, [errMsg input_pdf e], false, none, 1⟩
    | none =>
      let wpage := watermarkPage watermark_text
      match mergeLoop env wpage pages 0 with
      | Except.error e => ⟨false, [errMsg input_pdf e], false, none, 1⟩
      | Except.ok merged =>
        match env.openErr with
        | some e => ⟨false, [errMsg input_pdf e], false, none, 1⟩
        | none =>
          match env.writeErr with
          | some e => ⟨false, [errMsg input_pdf e], true, none, 1⟩
          | none => ⟨true, [okMsg output_pdf], true, some merged, 1⟩

/-- The usage line printed when fewer than two positional arguments are given. -/
def usageMsg : String :=
  "Usage: python3 add_watermark.py <input_pdf> <output_pdf>"

/-- The line `print(f"❌ Error: Input file {input_pdf} not found")`. -/
def notFoundMsg (input : String) : String :=
  "❌ Error: Input file " ++ input ++ " not found"

/-- Observable outcome of the whole script: process exit status, printed
lines, and the `add_watermark` outcome when execution reached it. -/
structure MainOut where
  exit : ℕ
  printed : List String
  run : Option RunOut
deriving DecidableEq, Repr

/-- The `if __name__ == "__main__"` block: `argv` is the full `sys.argv`
(element 0 the program name), `pathExists` models `os.path.exists`.  With
fewer than three `argv` entries print the usage line and exit 1; with a
missing input path print the not-found line and exit 1; otherwise run
`add_watermark` and exit 0 on `True`, 1 on `False`. -/
def mainScript (argv : List String) (pathExists : String → Bool) (env : Env) : MainOut :=
  if argv.length < 3 then
    ⟨1, [usageMsg], none⟩
  else
    let input_pdf := argv.getD 1 ""
    let output_pdf := argv.getD 2 ""
    if pathExists input_pdf = false then
      ⟨1, [notFoundMsg input_pdf], none⟩
    else
      let r := add_watermark input_pdf output_pdf "PREPRINT" env
      ⟨if r.success then 0 else 1, r.printed, some r⟩

end AddWatermark

namespace AddWatermark

/-- When no merge raises, the merge loop returns every page with the
watermark composited on top, in the original order. -/
theorem mergeLoop_ok (env : Env) (w : Page) (hm : ∀ j, env.mergeErr j = none) :
    ∀ (ps : List Page) (s : ℕ),
      mergeLoop env w ps s = Except.ok (ps.map (fun p => p.merge_page w)) := by
  intro ps
  induction ps with
  | nil => intro s; rfl
  | cons p rest ih =>
    intro s
    simp [mergeLoop, hm s, ih (s + 1), Except.map]

/-- When the merge of some in-range page raises, the merge loop raises. -/
theorem mergeLoop_err (env : Env) (w : Page) :
    ∀ (ps : List Page) (s : ℕ),
      (∃ k, k < ps.length ∧ env.mergeErr (s + k) ≠ none) →
      ∃ e, mergeLoop env w ps s = Except.error e := by
  intro ps
  induction ps with
  | nil =>
    intro s hk
    obtain ⟨k, hklt, _⟩ := hk
    simp at hklt
  | cons p rest ih =>
    intro s hk
    obtain ⟨k, hklt, hkne⟩ := hk
    rcases hs : env.mergeErr s with _ | e
    · cases k with
      | zero =>
        rw [Nat.add_zero] at hkne
        exact absurd hs hkne
      | succ k =>
        obtain ⟨e, he⟩ :=
          ih (s + 1) ⟨k, by simp only [List.length_cons] at hklt; omega, by
            have hidx : s + 1 + k = s + (k + 1) := by omega
            rw [hidx]; exact hkne⟩
        exact ⟨e, by simp [mergeLoop, hs, he, Except.map]⟩
    · exact ⟨e, by simp [mergeLoop, hs]⟩

/-- A run in which no step raises: `add_watermark` returns `True`, prints the
success line, opens the output, and writes every input page merged with the
single watermark page. -/
theorem add_watermark_clean (input output wtext : String) (env : Env) (pages : List Page)
    (hp : env.parse = Except.ok pages) (hg : env.genErr = none)
    (hm : env.mergeErr = fun _ => none) (ho : env.openErr = none) (hw : env.writeErr = none) :
    add_watermark input output wtext env =
      ⟨true, [okMsg output], true,
        some (pages.map (fun p => p.merge_page (watermarkPage wtext))), 1⟩ := by
  have hm' : ∀ j, env.mergeErr j = none := fun j => by rw [hm]
  simp [add_watermark, hp, hg, ho, hw, mergeLoop_ok env (watermarkPage wtext) hm' pages 0]

/-- Any raised step makes `add_watermark` return `False` and print the error
line naming the input path and the exception. -/
theorem add_watermark_fails (input output wtext : String) (env : Env)
    (hfail : (∃ e, env.parse = Except.error e) ∨ env.genErr ≠ none ∨
      (∃ pages, env.parse = Except.ok pages ∧
        ∃ i, i < pages.length ∧ env.mergeErr i ≠ none) ∨
      env.openErr ≠ none ∨ env.writeErr ≠ none) :
    (add_watermark input output wtext env).success = false ∧
    ∃ e, (add_watermark input output wtext env).printed = [errMsg input e] := by
  rcases hparse : env.parse with e | pages
  · exact ⟨by simp [add_watermark, hparse], e, by simp [add_watermark, hparse]⟩
  · rcases hgen : env.genErr with _ | e
    · rcases hml : mergeLoop env (watermarkPage wtext) pages 0 with e | merged
      · exact ⟨by simp [add_watermark, hparse, hgen, hml], e,
          by simp [add_watermark, hparse, hgen, hml]⟩
      · rcases hopen : env.openErr with _ | e
        · rcases hwrite : env.writeErr with _ | e
          · exfalso
            rcases hfail with ⟨e, he⟩ | hg | ⟨pages', hp', i, hi, hmne⟩ | ho | hw
            · rw [hparse] at he; cases he
            · exact hg hgen
            · rw [hparse] at hp'
              injection hp' with hpp
              subst hpp
              obtain ⟨e, hml'⟩ := mergeLoop_err env (watermarkPage wtext) pages 0
                ⟨i, hi, by simpa using hmne⟩
              rw [hml] at hml'
              cases hml'
            · exact ho hopen
            · exact hw hwrite
          · exact ⟨by simp [add_watermark, hparse, hgen, hml, hopen, hwrite], e,
              by simp [add_watermark, hparse, hgen, hml, hopen, hwrite]⟩
        · exact ⟨by simp [add_watermark, hparse, hgen, hml, hopen], e,
            by simp [add_watermark, hparse, hgen, hml, hopen]⟩
    · exact ⟨by simp [add_watermark, hparse, hgen], e, by simp [add_watermark, hparse, hgen]⟩

end AddWatermark

namespace AddWatermark

/-- A sample input page (US-letter sized, one opaque content item). -/
def pageA : Page := ⟨(612, 792), [ContentItem.original 0]⟩

/-- A second, distinct sample input page. -/
def pageB : Page := ⟨(612, 792), [ContentItem.original 1]⟩

/-- Environment of a run in which every library call succeeds on a two-page
input document. -/
def envOK : Env := { parse := Except.ok [pageA, pageB] }

/-- Environment of a run in which parsing the input raises. -/
def envParseFail : Env := { parse := Except.error "EOF marker not found" }

/-- C1: for every input that parses successfully (and no library call
raises), the document written by `add_watermark` consists of exactly the
input's pages in their original order, each merged with the watermark page
on top, so an input with P pages yields an output with exactly P pages. -/
theorem add_watermark_page_count (input output wtext : String) (env : Env)
    (pages : List Page)
    (hp : env.parse = Except.ok pages) (hg : env.genErr = none)
    (hm : env.mergeErr = fun _ => none) (ho : env.openErr = none)
    (hw : env.writeErr = none) :
    ∃ out, (add_watermark input output wtext env).written = some out ∧
      out = pages.map (fun p => p.merge_page (watermarkPage wtext)) ∧
      out.length = pages.length := by
  refine ⟨pages.map (fun p => p.merge_page (watermarkPage wtext)), ?_, rfl, by simp⟩
  rw [add_watermark_clean input output wtext env pages hp hg hm ho hw]

/-- Witness for C1 on a concrete two-page document. -/
theorem add_watermark_page_count_witness :
    envOK.parse = Except.ok [pageA, pageB] ∧ envOK.genErr = none ∧
    envOK.mergeErr = (fun _ => none) ∧ envOK.openErr = none ∧
    envOK.writeErr = none ∧
    ∃ out, (add_watermark "input.pdf" "output.pdf" "PREPRINT" envOK).written = some out ∧
      out = [pageA, pageB].map (fun p => p.merge_page (watermarkPage "PREPRINT")) ∧
      out.length = ([pageA, pageB] : List Page).length :=
  ⟨rfl, rfl, rfl, rfl, rfl,
    add_watermark_page_count "input.pdf" "output.pdf" "PREPRINT" envOK [pageA, pageB]
      rfl rfl rfl rfl rfl⟩

/-- C2: `create_watermark text angle opacity` (with opacity in [0,1])
produces exactly one page, of the fixed A4 reference size, whose content is
a single centred text draw: the given text, Helvetica-Bold at 60pt, filled
gray at the given alpha, anchored at user-space (0,0) under the transform
that first translates to the A4 page centre and then rotates by the given
angle — i.e. the text is centred at the geometric page centre and rotated by
the angle about that centre. -/
theorem create_watermark_spec (text : String) (angle opacity : ℚ)
    (h0 : 0 ≤ opacity) (h1 : opacity ≤ 1) :
    (create_watermark text angle opacity).pages =
      [⟨A4, [ContentItem.draw
        ⟨text, "Helvetica-Bold", 60, "gray", opacity, 0, 0, true,
          [TransformOp.translate (a4Width / 2) (a4Height / 2),
           TransformOp.rotate angle]⟩]⟩] := rfl

/-- Witness for C2 at the default parameters. -/
theorem create_watermark_spec_witness :
    (0 : ℚ) ≤ 3 / 10 ∧ (3 : ℚ) / 10 ≤ 1 ∧
    (create_watermark "PREPRINT" 45 (3 / 10)).pages =
      [⟨A4, [ContentItem.draw
        ⟨"PREPRINT", "Helvetica-Bold", 60, "gray", 3 / 10, 0, 0, true,
          [TransformOp.translate (a4Width / 2) (a4Height / 2),
           TransformOp.rotate 45]⟩]⟩] :=
  ⟨by norm_num, by norm_num,
    create_watermark_spec "PREPRINT" 45 (3 / 10) (by norm_num) (by norm_num)⟩

/-- C3: in a successful run the generator is invoked exactly once, and the
very same watermark content list is appended on top of every page of the
output: identical content, position and rotation on all pages, while each
page keeps its own size (no per-page scaling). -/
theorem watermark_shared_across_pages (input output wtext : String) (env : Env)
    (pages : List Page)
    (hp : env.parse = Except.ok pages) (hg : env.genErr = none)
    (hm : env.mergeErr = fun _ => none) (ho : env.openErr = none)
    (hw : env.writeErr = none) :
    (add_watermark input output wtext env).genCalls = 1 ∧
    ∃ wc, (add_watermark input output wtext env).written =
      some (pages.map (fun p => Page.mk p.size (p.content ++ wc))) := by
  rw [add_watermark_clean input output wtext env pages hp hg hm ho hw]
  exact ⟨rfl, (watermarkPage wtext).content, rfl⟩

/-- Witness for C3 on a concrete two-page document. -/
theorem watermark_shared_across_pages_witness :
    envOK.parse = Except.ok [pageA, pageB] ∧ envOK.genErr = none ∧
    envOK.mergeErr = (fun _ => none) ∧ envOK.openErr = none ∧
    envOK.writeErr = none ∧
    ((add_watermark "input.pdf" "output.pdf" "PREPRINT" envOK).genCalls = 1 ∧
      ∃ wc, (add_watermark "input.pdf" "output.pdf" "PREPRINT" envOK).written =
        some ([pageA, pageB].map (fun p => Page.mk p.size (p.content ++ wc)))) :=
  ⟨rfl, rfl, rfl, rfl, rfl,
    watermark_shared_across_pages "input.pdf" "output.pdf" "PREPRINT" envOK
      [pageA, pageB] rfl rfl rfl rfl rfl⟩

/-- C8: watermark generation is deterministic — two invocations of
`create_watermark` with identical text, angle and opacity produce identical
overlay content. -/
theorem create_watermark_deterministic (t₁ t₂ : String) (a₁ a₂ o₁ o₂ : ℚ)
    (ht : t₁ = t₂) (ha : a₁ = a₂) (ho : o₁ = o₂) :
    create_watermark t₁ a₁ o₁ = create_watermark t₂ a₂ o₂ := by
  rw [ht, ha, ho]

/-- Witness for C8 at the default parameters. -/
theorem create_watermark_deterministic_witness :
    ("PREPRINT" : String) = "PREPRINT" ∧ (45 : ℚ) = 45 ∧ (3 : ℚ) / 10 = 3 / 10 ∧
    create_watermark "PREPRINT" 45 (3 / 10) = create_watermark "PREPRINT" 45 (3 / 10) :=
  ⟨rfl, rfl, rfl,
    create_watermark_deterministic "PREPRINT" "PREPRINT" 45 45 (3 / 10) (3 / 10)
      rfl rfl rfl⟩

/-- C9: when parsing, watermark generation, or the merge of some in-range
page raises, the output path is never opened for writing and no document is
written (any pre-existing file at the output path is untouched). -/
theorem no_output_on_early_failure (input output wtext : String) (env : Env)
    (hfail : (∃ e, env.parse = Except.error e) ∨ env.genErr ≠ none ∨
      (∃ pages, env.parse = Except.ok pages ∧
        ∃ i, i < pages.length ∧ env.mergeErr i ≠ none)) :
    (add_watermark input output wtext env).outputOpened = false ∧
    (add_watermark input output wtext env).written = none := by
  rcases hparse : env.parse with e | pages
  · simp [add_watermark, hparse]
  · rcases hgen : env.genErr with _ | e
    · rcases hfail with ⟨e, he⟩ | hg | ⟨pages', hp', i, hi, hmne⟩
      · rw [hparse] at he; cases he
      · exact absurd hgen hg
      · rw [hparse] at hp'
        injection hp' with hpp
        subst hpp
        obtain ⟨e, hml⟩ := mergeLoop_err env (watermarkPage wtext) pages 0
          ⟨i, hi, by simpa using hmne⟩
        simp [add_watermark, hparse, hgen, hml]
    · simp [add_watermark, hparse, hgen]

/-- Witness for C9 on a concrete parse failure. -/
theorem no_output_on_early_failure_witness :
    (∃ e, envParseFail.parse = Except.error e) ∧
    ((add_watermark "input.pdf" "output.pdf" "PREPRINT" envParseFail).outputOpened = false ∧
      (add_watermark "input.pdf" "output.pdf" "PREPRINT" envParseFail).written = none) :=
  ⟨⟨"EOF marker not found", rfl⟩,
    no_output_on_early_failure "input.pdf" "output.pdf" "PREPRINT" envParseFail
      (Or.inl ⟨"EOF marker not found", rfl⟩)⟩

end AddWatermark

namespace AddWatermark

/-- C4: when the argument count and existence checks pass but some processing
step (parse, generation, merge of an in-range page, open or write of the
output) raises, the exception is caught inside `add_watermark`: it returns
`False`, the only line printed is the error line naming the input path and
the exception, and the process exits with status 1. -/
theorem processing_error_exit (argv : List String) (pathExists : String → Bool)
    (env : Env)
    (ha : 3 ≤ argv.length) (he : pathExists (argv.getD 1 "") = true)
    (hfail : (∃ e, env.parse = Except.error e) ∨ env.genErr ≠ none ∨
      (∃ pages, env.parse = Except.ok pages ∧
        ∃ i, i < pages.length ∧ env.mergeErr i ≠ none) ∨
      env.openErr ≠ none ∨ env.writeErr ≠ none) :
    (mainScript argv pathExists env).exit = 1 ∧
    ∃ r, (mainScript argv pathExists env).run = some r ∧ r.success = false ∧
      ∃ e, r.printed = [errMsg (argv.getD 1 "") e] := by
  obtain ⟨hsucc, e, hpr⟩ :=
    add_watermark_fails (argv.getD 1 "") (argv.getD 2 "") "PREPRINT" env hfail
  have hnl : ¬ argv.length < 3 := Nat.not_lt.mpr ha
  have hne : ¬ (pathExists (argv.getD 1 "") = false) := by
    intro hcontra
    rw [he] at hcontra
    exact absurd hcontra (by decide)
  have hmain : mainScript argv pathExists env =
      ⟨1, (add_watermark (argv.getD 1 "") (argv.getD 2 "") "PREPRINT" env).printed,
        some (add_watermark (argv.getD 1 "") (argv.getD 2 "") "PREPRINT" env)⟩ := by
    simp only [mainScript]
    rw [if_neg hnl, if_neg hne, hsucc]
    rfl
  rw [hmain]
  exact ⟨rfl, _, rfl, hsucc, e, hpr⟩

/-- Witness for C4 on a concrete parse failure. -/
theorem processing_error_exit_witness :
    3 ≤ (["add_watermark.py", "input.pdf", "output.pdf"] : List String).length ∧
    (fun _ : String => true)
      ((["add_watermark.py", "input.pdf", "output.pdf"] : List String).getD 1 "") = true ∧
    (∃ e, envParseFail.parse = Except.error e) ∧
    ((mainScript ["add_watermark.py", "input.pdf", "output.pdf"] (fun _ => true)
        envParseFail).exit = 1 ∧
      ∃ r, (mainScript ["add_watermark.py", "input.pdf", "output.pdf"] (fun _ => true)
          envParseFail).run = some r ∧ r.success = false ∧
        ∃ e, r.printed =
          [errMsg ((["add_watermark.py", "input.pdf", "output.pdf"] :
            List String).getD 1 "") e]) :=
  ⟨by decide, rfl, ⟨"EOF marker not found", rfl⟩,
    processing_error_exit ["add_watermark.py", "input.pdf", "output.pdf"] (fun _ => true)
      envParseFail (by decide) rfl (Or.inl ⟨"EOF marker not found", rfl⟩)⟩

/-- C5: with enough arguments but a nonexistent input path, the script prints
the not-found line naming that path and exits 1, before any processing: no
`add_watermark` run happens and no output file is created. -/
theorem missing_input_exit (argv : List String) (pathExists : String → Bool)
    (env : Env)
    (ha : 3 ≤ argv.length) (he : pathExists (argv.getD 1 "") = false) :
    mainScript argv pathExists env = ⟨1, [notFoundMsg (argv.getD 1 "")], none⟩ := by
  simp only [mainScript]
  rw [if_neg (Nat.not_lt.mpr ha), if_pos he]

/-- Witness for C5 on the spec's scenario arguments. -/
theorem missing_input_exit_witness :
    3 ≤ (["add_watermark.py", "missing.pdf", "nonexistent.pdf"] : List String).length ∧
    (fun _ : String => false)
      ((["add_watermark.py", "missing.pdf", "nonexistent.pdf"] : List String).getD 1 "")
      = false ∧
    mainScript ["add_watermark.py", "missing.pdf", "nonexistent.pdf"] (fun _ => false)
        envOK =
      ⟨1, [notFoundMsg ((["add_watermark.py", "missing.pdf", "nonexistent.pdf"] :
        List String).getD 1 "")], none⟩ :=
  ⟨by decide, rfl,
    missing_input_exit ["add_watermark.py", "missing.pdf", "nonexistent.pdf"]
      (fun _ => false) envOK (by decide) rfl⟩

/-- C6: with fewer than two positional arguments (fewer than three `argv`
entries counting the program name), the script prints the usage line to
standard output and exits 1, with no processing attempted and no file
written. -/
theorem usage_exit (argv : List String) (pathExists : String → Bool) (env : Env)
    (h : argv.length < 3) :
    mainScript argv pathExists env = ⟨1, [usageMsg], none⟩ := by
  simp [mainScript, h]

/-- Witness for C6 with zero positional arguments. -/
theorem usage_exit_witness :
    (["add_watermark.py"] : List String).length < 3 ∧
    mainScript ["add_watermark.py"] (fun _ => true) envOK = ⟨1, [usageMsg], none⟩ :=
  ⟨by decide, usage_exit ["add_watermark.py"] (fun _ => true) envOK (by decide)⟩

/-- C7: when every processing step succeeds, the script prints the success
line naming the output path, `add_watermark` returns `True`, the output
document holding every input page watermarked is written, and the process
exits with status 0. -/
theorem success_exit (argv : List String) (pathExists : String → Bool) (env : Env)
    (pages : List Page)
    (ha : 3 ≤ argv.length) (he : pathExists (argv.getD 1 "") = true)
    (hp : env.parse = Except.ok pages) (hg : env.genErr = none)
    (hm : env.mergeErr = fun _ => none) (ho : env.openErr = none)
    (hw : env.writeErr = none) :
    mainScript argv pathExists env =
      ⟨0, [okMsg (argv.getD 2 "")],
        some ⟨true, [okMsg (argv.getD 2 "")], true,
          some (pages.map (fun p => p.merge_page (watermarkPage "PREPRINT"))), 1⟩⟩ := by
  have hrun := add_watermark_clean (argv.getD 1 "") (argv.getD 2 "") "PREPRINT" env
    pages hp hg hm ho hw
  have hne : ¬ (pathExists (argv.getD 1 "") = false) := by
    intro hcontra
    rw [he] at hcontra
    exact absurd hcontra (by decide)
  simp only [mainScript]
  rw [if_neg (Nat.not_lt.mpr ha), if_neg hne, hrun]
  rfl

/-- Witness for C7 on a concrete two-page document. -/
theorem success_exit_witness :
    3 ≤ (["add_watermark.py", "input.pdf", "output.pdf"] : List String).length ∧
    (fun _ : String => true)
      ((["add_watermark.py", "input.pdf", "output.pdf"] : List String).getD 1 "") = true ∧
    envOK.parse = Except.ok [pageA, pageB] ∧ envOK.genErr = none ∧
    envOK.mergeErr = (fun _ => none) ∧ envOK.openErr = none ∧ envOK.writeErr = none ∧
    mainScript ["add_watermark.py", "input.pdf", "output.pdf"] (fun _ => true) envOK =
      ⟨0, [okMsg ((["add_watermark.py", "input.pdf", "output.pdf"] :
          List String).getD 2 "")],
        some ⟨true, [okMsg ((["add_watermark.py", "input.pdf", "output.pdf"] :
            List String).getD 2 "")], true,
          some ([pageA, pageB].map (fun p => p.merge_page (watermarkPage "PREPRINT"))),
          1⟩⟩ :=
  ⟨by decide, rfl, rfl, rfl, rfl, rfl, rfl,
    success_exit ["add_watermark.py", "input.pdf", "output.pdf"] (fun _ => true) envOK
      [pageA, pageB] (by decide) rfl rfl rfl rfl rfl rfl⟩

/-- C10: arguments beyond the first two positional ones are silently ignored
— a run with extra `argv` entries behaves exactly like the run on just the
first three entries (program name, input, output). -/
theorem extra_args_ignored (argv : List String) (pathExists : String → Bool)
    (env : Env) (h : 3 ≤ argv.length) :
    mainScript argv pathExists env = mainScript (argv.take 3) pathExists env := by
  match argv, h with
  | a :: b :: c :: rest, _ =>
    have h1 : ¬ (a :: b :: c :: rest).length < 3 := by
      simp only [List.length_cons]; omega
    have h2 : ¬ (a :: b :: c :: ([] : List String)).length < 3 := by
      simp only [List.length_cons]; omega
    simp [mainScript, h1, h2]

/-- Witness for C10 with one extra argument. -/
theorem extra_args_ignored_witness :
    3 ≤ (["add_watermark.py", "input.pdf", "output.pdf", "extra"] : List String).length ∧
    mainScript ["add_watermark.py", "input.pdf", "output.pdf", "extra"] (fun _ => true)
        envParseFail =
      mainScript ((["add_watermark.py", "input.pdf", "output.pdf", "extra"] :
        List String).take 3) (fun _ => true) envParseFail :=
  ⟨by decide,
    extra_args_ignored ["add_watermark.py", "input.pdf", "output.pdf", "extra"]
      (fun _ => true) envParseFail (by decide)⟩

end AddWatermark
